import Mathlib

/-!
Verification of the QuizBot-Shorts pipeline.

Shallow embedding of the pure logic of the repository:
  - dynamic_video_generator.py : phrase splitting, per-phrase duration
    computation, B-roll keyword assignment, segment construction, audio mixing;
  - background_music.py : the source fallback chain and the download cache;
  - ai_evaluator.py : default-on-error evaluation results;
  - dailymotion_uploader.py : upload metadata truncation;
  - god_tier_prompts.py : emoji stripping.

Strings are embedded as List Char (Python len counts code points, matching
List.length).  Network calls, file-system state and AI responses are oracles
passed as explicit parameters; a Python exception raised inside a try block
is the error case of the corresponding oracle.
-/

/-! ## dynamic_video_generator.py, lines 73-108: split_into_phrases -/

/-- The characters the regular expression [.!?]+ (line 83) splits on. -/
def isSentencePunct (c : Char) : Bool := c = '.' || c = '!' || c = '?'

/-- The whitespace set of the Python str.strip method. -/
def isPySpace (c : Char) : Bool :=
  c.val = 0x20 || (0x09 ≤ c.val && c.val ≤ 0x0d) || (0x1c ≤ c.val && c.val ≤ 0x1f) ||
  c.val = 0x85 || c.val = 0xa0 || c.val = 0x1680 ||
  (0x2000 ≤ c.val && c.val ≤ 0x200a) || c.val = 0x2028 || c.val = 0x2029 ||
  c.val = 0x202f || c.val = 0x205f || c.val = 0x3000

/-- Python str.strip: drop leading and trailing whitespace. -/
def pyStrip (l : List Char) : List Char :=
  ((l.dropWhile isPySpace).reverse.dropWhile isPySpace).reverse

/-- Split a character list at every character satisfying p, keeping empty pieces
    (the behaviour of splitting on each single separator character). -/
def splitOnPred (p : Char → Bool) : List Char → List (List Char)
  | [] => [[]]
  | c :: cs =>
    if p c then [] :: splitOnPred p cs
    else
      match splitOnPred p cs with
      | [] => [[c]]
      | r :: rs => (c :: r) :: rs

/-- Lines 83-84: re.split on [.!?]+, then strip each piece and drop empties.
    Splitting on maximal punctuation runs differs from splitting on single
    punctuation characters only by extra empty pieces, which the nonempty
    filter removes, so the two coincide after the filter. -/
def sentencesOf (content : List Char) : List (List Char) :=
  ((splitOnPred isSentencePunct content).map pyStrip).filter (· ≠ [])

/-- Lines 88-91: a long sentence is split on commas, each part stripped and
    empty parts dropped. -/
def commaParts (s : List Char) : List (List Char) :=
  ((splitOnPred (· = ',') s).map pyStrip).filter (· ≠ [])

/-- Lines 86-93: sentences longer than 60 characters are replaced by their
    comma parts; the rest are kept whole. -/
def expandLong (sentences : List (List Char)) : List (List Char) :=
  (sentences.map (fun s => if s.length > 60 then commaParts s else [s])).flatten

/-- Lines 96-106: the merge loop.  The buffer absorbs the next phrase while
    len(buffer) + len(phrase) < 40, joining with a space when the buffer is
    nonempty; otherwise the nonempty buffer is flushed and the phrase starts a
    new buffer; the final nonempty buffer is flushed at the end. -/
def mergePhrases : List (List Char) → List Char → List (List Char) → List (List Char)
  | [], buffer, acc => if buffer.isEmpty then acc else acc ++ [buffer]
  | p :: rest, buffer, acc =>
    if buffer.length + p.length < 40 then
      mergePhrases rest (if buffer.isEmpty then p else buffer ++ [' '] ++ p) acc
    else
      mergePhrases rest p (if buffer.isEmpty then acc else acc ++ [buffer])

/-- Lines 73-108: split_into_phrases. -/
def split_into_phrases (content : List Char) (target_phrases : ℕ) : List (List Char) :=
  (mergePhrases (expandLong (sentencesOf content)) [] []).take target_phrases

/-! ## Helper lemmas about the merge loop -/

/-- Every string the merge loop emits is either an already-accumulated string or
    a nonempty buffer, so nonemptiness of the accumulator is preserved. -/
theorem mergePhrases_ne_nil (ps : List (List Char)) :
    ∀ (buffer : List Char) (acc : List (List Char)),
      (∀ x ∈ acc, x ≠ []) → ∀ x ∈ mergePhrases ps buffer acc, x ≠ [] := by
  induction ps with
  | nil =>
    intro buffer acc hacc x hx
    by_cases hb : buffer.isEmpty
    · simp only [mergePhrases, hb, if_pos] at hx
      exact hacc x hx
    · simp only [mergePhrases, hb, if_neg, Bool.false_eq_true, not_false_iff] at hx
      rcases List.mem_append.mp hx with h | h
      · exact hacc x h
      · rcases List.mem_singleton.mp h with rfl
        simpa [List.isEmpty_iff] using hb
  | cons p rest ih =>
    intro buffer acc hacc x hx
    simp only [mergePhrases] at hx
    by_cases hlen : buffer.length + p.length < 40
    · rw [if_pos hlen] at hx
      exact ih _ acc hacc x hx
    · rw [if_neg hlen] at hx
      refine ih p _ ?_ x hx
      intro y hy
      by_cases hb : buffer.isEmpty
      · rw [if_pos hb] at hy
        exact hacc y hy
      · rw [if_neg hb] at hy
        rcases List.mem_append.mp hy with h | h
        · exact hacc y h
        · rcases List.mem_singleton.mp h with rfl
          simpa [List.isEmpty_iff] using hb

/-! ## Claim C2: the splitting algorithm as the spec states it -/

/-- The merge loop exactly as the claim sentence reads: a piece is merged into
    the buffer only while the merged text itself, joining space included,
    stays under 40 characters. -/
def mergePhrasesClaim : List (List Char) → List Char → List (List Char) → List (List Char)
  | [], buffer, acc => if buffer.isEmpty then acc else acc ++ [buffer]
  | p :: rest, buffer, acc =>
    let merged := if buffer.isEmpty then p else buffer ++ [' '] ++ p
    if merged.length < 40 then
      mergePhrasesClaim rest merged acc
    else
      mergePhrasesClaim rest p (if buffer.isEmpty then acc else acc ++ [buffer])

/-- split_into_phrases as the claim literally describes it. -/
def split_into_phrases_claim (content : List Char) (n : ℕ) : List (List Char) :=
  (mergePhrasesClaim (expandLong (sentencesOf content)) [] []).take n

/-- The merge loop as the amended claim reads: merged text built with a joining
    space, but the under-40 test counts the characters of the two pieces only,
    excluding the joining space. -/
def mergePhrasesAmended : List (List Char) → List Char → List (List Char) → List (List Char)
  | [], buffer, acc => if buffer.isEmpty then acc else acc ++ [buffer]
  | p :: rest, buffer, acc =>
    let merged := if buffer.isEmpty then p else buffer ++ [' '] ++ p
    if buffer.length + p.length < 40 then
      mergePhrasesAmended rest merged acc
    else
      mergePhrasesAmended rest p (if buffer.isEmpty then acc else acc ++ [buffer])

/-- split_into_phrases as the amended claim describes it: sentence split, comma
    split of long sentences, merge with the space-exclusive 40 test, cap at n. -/
def split_into_phrases_amended (content : List Char) (n : ℕ) : List (List Char) :=
  (mergePhrasesAmended (expandLong (sentencesOf content)) [] []).take n

theorem mergePhrasesAmended_eq (ps : List (List Char)) :
    ∀ buffer acc, mergePhrasesAmended ps buffer acc = mergePhrases ps buffer acc := by
  induction ps with
  | nil => intro buffer acc; rfl
  | cons p rest ih =>
    intro buffer acc
    simp only [mergePhrasesAmended, mergePhrases]
    by_cases hlen : buffer.length + p.length < 40
    · rw [if_pos hlen, if_pos hlen, ih]
    · rw [if_neg hlen, if_neg hlen, ih]

/-- The input refuting the literal claim: a 19-character sentence followed by a
    20-character sentence.  The code merges them (19 + 20 < 40) into a merged
    text of 40 characters, which is not under 40, so the literal reading of the
    merge rule would keep them apart. -/
def c2_input : List Char := List.replicate 19 'a' ++ '.' :: List.replicate 20 'b'

/-- C2 counterexample: on c2_input the code and the claimed algorithm return
    different phrase lists, so the claim as stated is false. -/
theorem split_into_phrases_claim_counterexample :
    split_into_phrases c2_input 4 ≠ split_into_phrases_claim c2_input 4 := by
  decide

/-- C2 (amended): split_into_phrases splits at sentence punctuation, splits
    over-60-character sentences on commas, merges adjacent pieces while the
    combined character count of the pieces, excluding the joining space, stays
    under 40, and returns at most target_phrases phrases. -/
theorem split_into_phrases_spec (content : List Char) (n : ℕ) :
    split_into_phrases content n = split_into_phrases_amended content n ∧
      (split_into_phrases content n).length ≤ n := by
  constructor
  · unfold split_into_phrases split_into_phrases_amended
    rw [mergePhrasesAmended_eq]
  · unfold split_into_phrases
    rw [List.length_take]
    exact min_le_left _ _

/-! ## Claim C7: elements of split_into_phrases are nonempty -/

/-- C7: every element of the list returned by split_into_phrases is a nonempty
    string, for every input string and every target count. -/
theorem split_into_phrases_nonempty (content : List Char) (target : ℕ) :
    ∀ ph ∈ split_into_phrases content target, ph ≠ [] := by
  intro ph hmem
  exact mergePhrases_ne_nil _ [] [] (by simp) ph (List.take_subset _ _ hmem)

/-- C7 witness: on the concrete input "hi" the returned list contains the
    nonempty phrase "hi". -/
theorem split_into_phrases_nonempty_witness :
    ['h', 'i'] ∈ split_into_phrases ['h', 'i'] 4 ∧ (['h', 'i'] : List Char) ≠ [] :=
  ⟨by decide, split_into_phrases_nonempty ['h', 'i'] 4 ['h', 'i'] (by decide)⟩

/-! ## Claim C1: per-phrase durations (dynamic_video_generator.py lines 293-298) -/

/-- Line 295: total character count over the phrase list. -/
def total_chars (phrases : List (List Char)) : ℕ := (phrases.map List.length).sum

/-- Lines 296-298: each phrase gets (len(phrase) / total_chars) * duration,
    clamped from below to the 2.0-second minimum by max(, 2.0). -/
def phrase_durations (phrases : List (List Char)) (duration : ℚ) : List ℚ :=
  phrases.map (fun p => max ((p.length : ℚ) / (total_chars phrases : ℚ) * duration) 2)

/-- The durations as the claim states them: exactly proportional, no minimum. -/
def claim_durations (phrases : List (List Char)) (duration : ℚ) : List ℚ :=
  phrases.map (fun p => (p.length : ℚ) / (total_chars phrases : ℚ) * duration)

theorem sum_map_div_mul (l : List (List Char)) (T D : ℚ) :
    (l.map fun p => (p.length : ℚ) / T * D).sum = ((l.map List.length).sum : ℚ) / T * D := by
  induction l with
  | nil => simp
  | cons x xs ih =>
    simp only [List.map_cons, List.sum_cons, ih]
    push_cast
    ring

/-- C1 counterexample: phrases of lengths 1 and 9 with a 10-second voiceover.
    The total character count (10) and the duration (10) are positive, yet the
    code assigns [2, 9], not the proportional [1, 9], and the assigned durations
    sum to 11, not to the voiceover duration 10. -/
theorem phrase_durations_counterexample :
    (0 : ℚ) < (total_chars [['a'], List.replicate 9 'b'] : ℚ) ∧ (0 : ℚ) < 10 ∧
      phrase_durations [['a'], List.replicate 9 'b'] 10 ≠
        claim_durations [['a'], List.replicate 9 'b'] 10 ∧
      (phrase_durations [['a'], List.replicate 9 'b'] 10).sum ≠ 10 := by
  have h1 : phrase_durations [['a'], List.replicate 9 'b'] 10 = [2, 9] := by
    norm_num [phrase_durations, total_chars, max_def]
  have h2 : claim_durations [['a'], List.replicate 9 'b'] 10 = [1, 9] := by
    norm_num [claim_durations, total_chars]
  refine ⟨by norm_num [total_chars], by norm_num, ?_, ?_⟩
  · rw [h1, h2]
    simp only [ne_eq, List.cons.injEq]
    norm_num
  · rw [h1]
    norm_num

/-- C1 (amended): each phrase gets max((len(phrase)/total_chars) * duration, 2.0);
    whenever every proportional share already reaches the 2-second minimum and
    the total character count is positive, the assigned durations are exactly the
    proportional shares and sum to the voiceover duration. -/
theorem phrase_durations_proportional (phrases : List (List Char)) (D : ℚ)
    (htot : 0 < (total_chars phrases : ℚ))
    (hmin : ∀ p ∈ phrases, 2 ≤ (p.length : ℚ) / (total_chars phrases : ℚ) * D) :
    phrase_durations phrases D = claim_durations phrases D ∧
      (phrase_durations phrases D).sum = D := by
  have heq : phrase_durations phrases D = claim_durations phrases D := by
    unfold phrase_durations claim_durations
    refine List.map_congr_left ?_
    intro p hp
    exact max_eq_left (hmin p hp)
  refine ⟨heq, ?_⟩
  rw [heq]
  unfold claim_durations
  rw [sum_map_div_mul]
  rw [show ((phrases.map List.length).sum : ℚ) = (total_chars phrases : ℚ) from rfl]
  rw [div_self (ne_of_gt htot), one_mul]

/-- C1 witness: two 5-character phrases with a 20-second voiceover satisfy the
    positivity and minimum-share hypotheses, and the durations are exactly
    proportional and sum to 20. -/
theorem phrase_durations_proportional_witness :
    phrase_durations [List.replicate 5 'a', List.replicate 5 'b'] 20 =
        claim_durations [List.replicate 5 'a', List.replicate 5 'b'] 20 ∧
      (phrase_durations [List.replicate 5 'a', List.replicate 5 'b'] 20).sum = 20 :=
  phrase_durations_proportional _ 20 (by norm_num [total_chars])
    (by
      intro p hp
      simp only [List.mem_cons, List.not_mem_nil, or_false] at hp
      rcases hp with rfl | rfl <;> norm_num [total_chars])

/-! ## Claim C3: one visual slot and one segment per phrase (lines 110-155, 277-311) -/

/-- Lines 110-155.  The Groq API key is an oracle; ai_result is the keyword list
    parsed from the model response when the call and the JSON parse succeed, and
    none when any exception is raised (line 153), in which case the hardcoded
    fallback of one "dramatic scene" keyword per phrase is returned.  With no
    API key the four generic default keywords are truncated to the phrase
    count. -/
def generate_broll_keywords_for_phrases (groq_key : Option String)
    (ai_result : Option (List String)) (phrases : List (List Char)) : List String :=
  match groq_key with
  | none =>
    ["dark cityscape", "thinking person", "abstract motion",
      "success celebration"].take phrases.length
  | some _ =>
    match ai_result with
    | some keywords => keywords
    | none => List.replicate phrases.length "dramatic scene"

/-- Lines 281-286: the download loop appends one entry (a clip path or none) to
    broll_clips for every keyword, indexed by position. -/
def broll_clips (download : ℕ → String → Option String) (keywords : List String) :
    List (Option String) :=
  keywords.enum.map (fun ik => download ik.1 ik.2)

/-- Line 304: the segment loop iterates over zip(phrases, broll_clips,
    phrase_durations); zip truncates to the shortest input, and one segment is
    created per triple. -/
def video_segments (phrases : List (List Char)) (clips : List (Option String))
    (durs : List ℚ) : List (List Char × Option String × ℚ) :=
  phrases.zip (clips.zip durs)

/-- Lines 273-307 data flow of generate_dynamic_video: split into phrases with
    target 4, generate keywords, download one clip slot per keyword, compute
    durations, and form one segment triple per zip element. -/
def dynamic_video_segments (content : List Char) (groq_key : Option String)
    (ai_result : Option (List String)) (download : ℕ → String → Option String)
    (voiceover_duration : ℚ) : List (List Char × Option String × ℚ) :=
  let phrases := split_into_phrases content 4
  let keywords := generate_broll_keywords_for_phrases groq_key ai_result phrases
  video_segments phrases (broll_clips download keywords)
    (phrase_durations phrases voiceover_duration)

/-- Two sentences of 40 characters each: two phrases after splitting. -/
def c3_input : List Char := List.replicate 40 'a' ++ '.' :: List.replicate 40 'b'

/-- C3 counterexample: on c3_input the splitter yields two phrases, but with a
    Groq key present and a successfully parsed AI keyword list of length one,
    the zip truncates and only one segment is produced, so the claim that every
    keyword list coming out of generate_broll_keywords_for_phrases yields
    exactly one segment per phrase is false. -/
theorem dynamic_video_segments_counterexample :
    (dynamic_video_segments c3_input (some "key") (some ["city skyline"])
        (fun _ _ => none) 10).length ≠
      (split_into_phrases c3_input 4).length := by
  decide

/-- C3 (amended): the segment loop produces min(#phrases, #keywords) segments;
    this equals one segment per phrase whenever the keyword list is at least as
    long as the phrase list, which the two hardcoded fallbacks (no API key, or
    an AI-call exception) always guarantee, but a successfully parsed AI keyword
    list shorter than the phrase list yields fewer segments. -/
theorem dynamic_video_segments_count (content : List Char) (groq_key : Option String)
    (ai_result : Option (List String)) (download : ℕ → String → Option String) (D : ℚ) :
    (dynamic_video_segments content groq_key ai_result download D).length =
      min (split_into_phrases content 4).length
        (generate_broll_keywords_for_phrases groq_key ai_result
          (split_into_phrases content 4)).length ∧
      (groq_key = none →
        (dynamic_video_segments content groq_key ai_result download D).length =
          (split_into_phrases content 4).length) ∧
      (ai_result = none →
        (dynamic_video_segments content groq_key ai_result download D).length =
          (split_into_phrases content 4).length) ∧
      ((split_into_phrases content 4).length ≤
          (generate_broll_keywords_for_phrases groq_key ai_result
            (split_into_phrases content 4)).length →
        (dynamic_video_segments content groq_key ai_result download D).length =
          (split_into_phrases content 4).length) := by
  have hp4 : (split_into_phrases content 4).length ≤ 4 := by
    unfold split_into_phrases
    rw [List.length_take]
    exact min_le_left _ _
  have hmain : ∀ kws : List String,
      (video_segments (split_into_phrases content 4) (broll_clips download kws)
          (phrase_durations (split_into_phrases content 4) D)).length =
        min (split_into_phrases content 4).length kws.length := by
    intro kws
    unfold video_segments broll_clips phrase_durations
    simp only [List.length_zip, List.length_map, List.enum_length]
    omega
  have hlen : (dynamic_video_segments content groq_key ai_result download D).length =
      min (split_into_phrases content 4).length
        (generate_broll_keywords_for_phrases groq_key ai_result
          (split_into_phrases content 4)).length := by
    unfold dynamic_video_segments
    exact hmain _
  refine ⟨hlen, ?_, ?_, ?_⟩
  · intro hk
    subst hk
    rw [hlen]
    unfold generate_broll_keywords_for_phrases
    rw [List.length_take]
    simp only [List.length_cons, List.length_nil]
    omega
  · intro hai
    subst hai
    rw [hlen]
    cases groq_key with
    | none =>
      unfold generate_broll_keywords_for_phrases
      rw [List.length_take]
      simp only [List.length_cons, List.length_nil]
      omega
    | some k =>
      unfold generate_broll_keywords_for_phrases
      rw [List.length_replicate]
      omega
  · intro hge
    rw [hlen]
    omega

/-- C3 witness: with no Groq key on the concrete input "hi", the hypothesis of
    the fallback clause holds and exactly one segment per phrase is produced. -/
theorem dynamic_video_segments_count_witness :
    (dynamic_video_segments ['h', 'i'] none none (fun _ _ => none) 10).length =
      (split_into_phrases ['h', 'i'] 4).length :=
  (dynamic_video_segments_count ['h', 'i'] none none (fun _ _ => none) 10).2.1 rfl

/-! ## Claim C4: audio stitching (dynamic_video_generator.py lines 314-336) -/

/-- Symbolic moviepy audio expressions, covering exactly the constructors the
    mixing code applies: a source file clip, volumex scaling, looping to a
    target duration, subclipping, and compositing. -/
inductive AudioExpr where
  | file (path : String) (dur : ℚ)
  | volumex (factor : ℚ) (clip : AudioExpr)
  | loop (dur : ℚ) (clip : AudioExpr)
  | subclip (tstart tend : ℚ) (clip : AudioExpr)
  | composite (clips : List AudioExpr)

mutual

/-- Clip duration under moviepy semantics: volumex preserves duration, loop
    imposes the requested duration, subclip from a to b lasts b - a, and a
    composite lasts as long as its longest component. -/
def AudioExpr.duration : AudioExpr → ℚ
  | .file _ d => d
  | .volumex _ c => c.duration
  | .loop d _ => d
  | .subclip a b _ => b - a
  | .composite cs => AudioExpr.durationMax cs

/-- The duration of the longest clip in a list (0 when empty). -/
def AudioExpr.durationMax : List AudioExpr → ℚ
  | [] => 0
  | c :: cs => max c.duration (AudioExpr.durationMax cs)

end

/-- Lines 316-336: the audio mix of generate_dynamic_video.  The music argument
    is the clip loaded at line 322 already scaled by volumex(0.12) at line 323;
    it is none when no music path was obtained, the path does not exist, or
    AudioFileClip raised (the bare except of lines 324-325).  When music is
    present it is looped if shorter than the final video, trimmed to the final
    video duration, and composited with the untouched voiceover; otherwise the
    voiceover alone is the final audio. -/
def mix_audio (vo : AudioExpr) (music : Option AudioExpr) (video_duration : ℚ) :
    AudioExpr :=
  match music with
  | none => vo
  | some mc =>
    let mc2 :=
      if mc.duration < video_duration then AudioExpr.loop video_duration mc else mc
    AudioExpr.composite [vo, AudioExpr.subclip 0 video_duration mc2]

/-- Line 322-323: obtaining the music track applies volumex(0.12) to the loaded
    file and nothing else. -/
def obtain_music (loaded : Option AudioExpr) : Option AudioExpr :=
  loaded.map (fun m => AudioExpr.volumex (12/100) m)

/-- C4: whenever a background-music clip is obtained, the final audio is the
    composite of the unmodified voiceover and the music scaled by 0.12, looped
    exactly when shorter than the final video, and trimmed to exactly the final
    video duration; with no music the final audio is the voiceover alone. -/
theorem mix_audio_spec (vo m : AudioExpr) (D : ℚ) :
    mix_audio vo (obtain_music none) D = vo ∧
      (∃ mc2,
        mix_audio vo (obtain_music (some m)) D =
            AudioExpr.composite [vo, AudioExpr.subclip 0 D mc2] ∧
          mc2 = (if (AudioExpr.volumex (12/100) m).duration < D then
              AudioExpr.loop D (AudioExpr.volumex (12/100) m)
            else AudioExpr.volumex (12/100) m) ∧
          (AudioExpr.subclip 0 D mc2).duration = D) := by
  refine ⟨rfl, ?_⟩
  refine ⟨if (AudioExpr.volumex (12/100) m).duration < D then
      AudioExpr.loop D (AudioExpr.volumex (12/100) m)
    else AudioExpr.volumex (12/100) m, ?_, rfl, ?_⟩
  · rfl
  · simp [AudioExpr.duration]

/-! ## Claim C5: background-music fallback chain (background_music.py lines 30-67) -/

/-- The outcome of each music source in get_background_music, as oracles: some
    path when the source succeeds (network call succeeded and a file of more
    than 10000 bytes is on disk afterwards, or a cached file was found), none
    when it fails for any reason. -/
structure MusicSources where
  cached_for_mood : Option String
  jamendo : Option String
  freepd : Option String
  pixabay : Option String
  any_cached : Option String

/-- Lines 30-67: get_background_music tries the cached-music check, the Jamendo
    API, FreePD, Pixabay, and finally any cached MP3 on disk, returning at the
    first success. -/
def get_background_music (s : MusicSources) : Option String :=
  match s.cached_for_mood with
  | some p => some p
  | none =>
    match s.jamendo with
    | some p => some p
    | none =>
      match s.freepd with
      | some p => some p
      | none =>
        match s.pixabay with
        | some p => some p
        | none => s.any_cached

/-- C5: get_background_music returns the first success in the fixed order
    cached-for-mood, Jamendo, FreePD, Pixabay, any cached MP3, and returns none
    exactly when every source in the chain fails. -/
theorem get_background_music_spec (s : MusicSources) :
    get_background_music s =
        [s.cached_for_mood, s.jamendo, s.freepd, s.pixabay, s.any_cached].findSome? id ∧
      (get_background_music s = none ↔
        s.cached_for_mood = none ∧ s.jamendo = none ∧ s.freepd = none ∧
          s.pixabay = none ∧ s.any_cached = none) := by
  obtain ⟨c, j, f, px, a⟩ := s
  cases c <;> cases j <;> cases f <;> cases px <;> cases a <;>
    simp [get_background_music, List.findSome?]

/-! ## Claim C6: caches short-circuit downloads -/

/-- Lines 157-170 of dynamic_video_generator.py.  Result and whether a Pexels
    download was started.  The pexels_key gate (line 159) precedes the cache
    check (line 164); download success is an oracle. -/
def download_broll_for_phrase (pexels_key : Option String) (cache_on_disk : Bool)
    (download_ok : Bool) (cache_path : String) : Option String × Bool :=
  match pexels_key with
  | none => (none, false)
  | some _ =>
    if cache_on_disk then (some cache_path, false)
    else if download_ok then (some cache_path, true) else (none, true)

/-- Lines 205-235 of background_music.py, _download_music.  Result and whether
    a download request was issued.  The cached file short-circuits only when it
    exists and its size exceeds 10000 bytes; otherwise the file is downloaded
    and kept only if the downloaded size exceeds 10000 bytes; a raised
    exception (download_ok false) yields none. -/
def download_music (cache_on_disk : Bool) (cache_size : ℕ) (download_ok : Bool)
    (downloaded_size : ℕ) (music_path : String) : Option String × Bool :=
  if cache_on_disk && decide (cache_size > 10000) then (some music_path, false)
  else if download_ok then
    if downloaded_size > 10000 then (some music_path, true) else (none, true)
  else (none, true)

/-- C6 counterexample: with no Pexels API key configured, the cache file may
    exist and yet download_broll_for_phrase returns none rather than the cached
    path, because the key gate precedes the cache check. -/
theorem download_broll_counterexample :
    (download_broll_for_phrase none true true "cache.mp4").1 ≠ some "cache.mp4" := by
  decide

/-- C6 (amended): provided a Pexels API key is configured, an existing B-roll
    cache file is returned without starting a download; and _download_music
    returns the existing cached music file, without issuing a download request,
    whenever it exists with size larger than 10000 bytes. -/
theorem cache_short_circuit (k : String) (download_ok : Bool) (broll_path : String)
    (cache_size downloaded_size : ℕ) (download_ok2 : Bool) (music_path : String)
    (hsize : cache_size > 10000) :
    download_broll_for_phrase (some k) true download_ok broll_path =
        (some broll_path, false) ∧
      download_music true cache_size download_ok2 downloaded_size music_path =
        (some music_path, false) := by
  constructor
  · rfl
  · unfold download_music
    simp [hsize]

/-- C6 witness: concrete instances of both cache hits. -/
theorem cache_short_circuit_witness :
    download_broll_for_phrase (some "pk") true false "b.mp4" = (some "b.mp4", false) ∧
      download_music true 20000 true 0 "m.mp3" = (some "m.mp3", false) :=
  cache_short_circuit "pk" false "b.mp4" 20000 0 true "m.mp3" (by decide)

/-! ## Claim C8: evaluator defaults (ai_evaluator.py lines 14-125) -/

/-- A JSON scalar value, enough for the evaluator result dictionaries. -/
inductive JVal where
  | num (n : ℤ)
  | str (s : String)
  | bool (b : Bool)
deriving DecidableEq, Repr

/-- A parsed JSON object, as a key-value association list. -/
abbrev JDict := List (String × JVal)

/-- The regular expression search for a brace-delimited block (lines 68 and
    116): the match runs from the first opening brace to the last closing
    brace after it, and fails when no such pair exists. -/
def extractJson (content : List Char) : Option (List Char) :=
  let fromBrace := content.dropWhile (· ≠ '{')
  let upToBrace := (fromBrace.reverse.dropWhile (· ≠ '}')).reverse
  if upToBrace.isEmpty then none else some upToBrace

/-- Lines 14-75, evaluate_question_quality.  Oracles: the API key, the chat
    completion call (error = any raised exception, with its message), and
    json.loads on the extracted block (error = a JSON parse exception).  Each
    failure path returns the hardcoded score-5 dictionary of the code. -/
def evaluate_question_quality (groq_api_key : Option String)
    (api_call : Except String String)
    (json_loads : List Char → Except String JDict) : JDict :=
  match groq_api_key with
  | none => [("score", .num 5), ("feedback", .str "AI evaluation unavailable (no API key)")]
  | some _ =>
    match api_call with
    | .error e => [("score", .num 5), ("feedback", .str ("Evaluation error: " ++ e))]
    | .ok content =>
      match extractJson content.toList with
      | none => [("score", .num 5), ("feedback", .str "Failed to parse AI response")]
      | some block =>
        match json_loads block with
        | .ok d => d
        | .error e => [("score", .num 5), ("feedback", .str ("Evaluation error: " ++ e))]

/-- Lines 78-125, evaluate_video_concept, with the same oracles; every failure
    path returns the hardcoded dictionary with should_generate true and
    score 5. -/
def evaluate_video_concept (groq_api_key : Option String)
    (api_call : Except String String)
    (json_loads : List Char → Except String JDict) : JDict :=
  match groq_api_key with
  | none => [("should_generate", .bool true), ("score", .num 5)]
  | some _ =>
    match api_call with
    | .error _ => [("should_generate", .bool true), ("score", .num 5)]
    | .ok content =>
      match extractJson content.toList with
      | none => [("should_generate", .bool true), ("score", .num 5)]
      | some block =>
        match json_loads block with
        | .ok d => d
        | .error _ => [("should_generate", .bool true), ("score", .num 5)]

/-- C8: both evaluators are total functions into result dictionaries, and on a
    missing API key, a failed API call, an unparseable response (no brace block
    or a JSON parse error) they return the hardcoded defaults: score 5, and for
    evaluate_video_concept also should_generate true. -/
theorem evaluators_default_on_error (api_call : Except String String)
    (json_loads : List Char → Except String JDict) (k e content : String) :
    (evaluate_question_quality none api_call json_loads).lookup "score" =
        some (.num 5) ∧
      (evaluate_video_concept none api_call json_loads).lookup "score" =
        some (.num 5) ∧
      (evaluate_video_concept none api_call json_loads).lookup "should_generate" =
        some (.bool true) ∧
      (evaluate_question_quality (some k) (.error e) json_loads).lookup "score" =
        some (.num 5) ∧
      (evaluate_video_concept (some k) (.error e) json_loads).lookup "should_generate" =
        some (.bool true) ∧
      (extractJson content.toList = none →
        (evaluate_question_quality (some k) (.ok content) json_loads).lookup "score" =
            some (.num 5) ∧
          (evaluate_video_concept (some k) (.ok content) json_loads).lookup
            "should_generate" = some (.bool true)) ∧
      (∀ block, extractJson content.toList = some block → json_loads block = .error e →
        (evaluate_question_quality (some k) (.ok content) json_loads).lookup "score" =
            some (.num 5) ∧
          (evaluate_video_concept (some k) (.ok content) json_loads).lookup
            "should_generate" = some (.bool true)) ∧
      (∀ block d, extractJson content.toList = some block → json_loads block = .ok d →
        evaluate_question_quality (some k) (.ok content) json_loads = d ∧
          evaluate_video_concept (some k) (.ok content) json_loads = d) := by
  refine ⟨rfl, rfl, rfl, rfl, rfl, ?_, ?_, ?_⟩
  · intro hx
    simp only [String.toList] at hx
    simp [evaluate_question_quality, evaluate_video_concept, hx]
  · intro block hx hl
    simp only [String.toList] at hx
    simp [evaluate_question_quality, evaluate_video_concept, hx, hl]
  · intro block d hx hl
    simp only [String.toList] at hx
    simp [evaluate_question_quality, evaluate_video_concept, hx, hl]

/-- C8 witness: a response with no brace-delimited block at all, at concrete
    oracle values. -/
theorem evaluators_default_on_error_witness :
    (evaluate_question_quality (some "gk") (.ok "no json here")
        (fun _ => .error "boom")).lookup "score" = some (.num 5) ∧
      (evaluate_video_concept (some "gk") (.ok "no json here")
        (fun _ => .error "boom")).lookup "should_generate" = some (.bool true) :=
  ((evaluators_default_on_error (.ok "no json here") (fun _ => .error "boom")
    "gk" "boom" "no json here").2.2.2.2.2.1) (by decide)

/-! ## Claim C9: upload metadata bounds (dailymotion_uploader.py lines 127-143) -/

/-- Lines 129-137: the video-creation request fields derived from the inputs:
    title truncated to 255, description truncated to 3000, and the first 20
    tags (the request joins them with commas), with the fixed pair of default
    tags when the tag list is empty or absent. -/
def upload_video_request (title description : List Char) (tags : List String) :
    List Char × List Char × List String :=
  (title.take 255, description.take 3000,
    if tags.isEmpty then ["viral", "shorts"] else tags.take 20)

/-- C9: for every title, description, and tag list, the video-creation request
    carries the input title truncated to at most 255 characters, at most 3000
    description characters, and at most 20 tags. -/
theorem upload_video_request_bounded (title description : List Char)
    (tags : List String) :
    (upload_video_request title description tags).1 = title.take 255 ∧
      (upload_video_request title description tags).1.length ≤ 255 ∧
      (upload_video_request title description tags).2.1 = description.take 3000 ∧
      (upload_video_request title description tags).2.1.length ≤ 3000 ∧
      (upload_video_request title description tags).2.2.length ≤ 20 := by
  unfold upload_video_request
  refine ⟨rfl, ?_, rfl, ?_, ?_⟩
  · rw [List.length_take]; exact min_le_left _ _
  · rw [List.length_take]; exact min_le_left _ _
  · by_cases h : tags.isEmpty
    · simp [h]
    · simp only [h, if_neg, Bool.false_eq_true, not_false_iff, List.length_take]
      omega

/-! ## Claim C10: emoji stripping (god_tier_prompts.py lines 29-50) -/

/-- The character class of the emoji_pattern regular expression (lines 32-49):
    the union of the listed code-point ranges and singletons. -/
def isEmojiChar (c : Char) : Bool :=
  (0x1F600 ≤ c.val && c.val ≤ 0x1F64F) ||
  (0x1F300 ≤ c.val && c.val ≤ 0x1F5FF) ||
  (0x1F680 ≤ c.val && c.val ≤ 0x1F6FF) ||
  (0x1F1E0 ≤ c.val && c.val ≤ 0x1F1FF) ||
  (0x2702 ≤ c.val && c.val ≤ 0x27B0) ||
  (0x24C2 ≤ c.val && c.val ≤ 0x1F251) ||
  (0x1F926 ≤ c.val && c.val ≤ 0x1F937) ||
  (0x10000 ≤ c.val && c.val ≤ 0x10FFFF) ||
  (0x2640 ≤ c.val && c.val ≤ 0x2642) ||
  (0x2600 ≤ c.val && c.val ≤ 0x2B55) ||
  c.val = 0x200D || c.val = 0x23CF || c.val = 0x23E9 || c.val = 0x231A ||
  c.val = 0xFE0F || c.val = 0x3030

/-- Line 50: substitute every run of pattern characters with the empty string,
    then str.strip the result.  Substituting runs with the empty string deletes
    exactly the characters of the class, so it is the filter keeping the
    complement. -/
def strip_emojis (s : List Char) : List Char :=
  pyStrip (s.filter (fun c => !isEmojiChar c))

theorem head_dropWhile_not {α} (p : α → Bool) (l : List α) :
    ∀ a, (l.dropWhile p).head? = some a → p a = false := by
  induction l with
  | nil => intro a h; simp [List.dropWhile] at h
  | cons x xs ih =>
    intro a h
    by_cases hx : p x
    · simp only [List.dropWhile, hx, if_pos] at h
      exact ih a h
    · simp only [List.dropWhile, hx, if_neg, Bool.false_eq_true, not_false_iff,
        List.head?_cons, Option.some.injEq] at h
      subst h
      simpa using hx

theorem dropWhile_eq_self_of_head {α} (p : α → Bool) (l : List α)
    (h : ∀ a, l.head? = some a → p a = false) : l.dropWhile p = l := by
  cases l with
  | nil => rfl
  | cons x xs =>
    have hx := h x rfl
    simp [List.dropWhile, hx]

theorem dropWhile_suffix_decomp {α} (p : α → Bool) (l : List α) :
    ∃ t, t ++ l.dropWhile p = l := by
  induction l with
  | nil => exact ⟨[], rfl⟩
  | cons x xs ih =>
    by_cases hx : p x
    · obtain ⟨t, ht⟩ := ih
      refine ⟨x :: t, ?_⟩
      simp only [List.dropWhile, hx, if_pos, List.cons_append, ht]
    · refine ⟨[], ?_⟩
      simp [List.dropWhile, hx]

theorem mem_of_mem_pyStrip {a : Char} {l : List Char} (h : a ∈ pyStrip l) : a ∈ l := by
  unfold pyStrip at h
  rw [List.mem_reverse] at h
  have h1 := (List.dropWhile_sublist _).subset h
  rw [List.mem_reverse] at h1
  exact (List.dropWhile_sublist _).subset h1

theorem pyStrip_idempotent (l : List Char) : pyStrip (pyStrip l) = pyStrip l := by
  have hA : ∀ a, (l.dropWhile isPySpace).head? = some a → isPySpace a = false :=
    head_dropWhile_not _ _
  have hB : ∀ a, ((l.dropWhile isPySpace).reverse.dropWhile isPySpace).head? = some a →
      isPySpace a = false := head_dropWhile_not _ _
  obtain ⟨s, hs⟩ := dropWhile_suffix_decomp isPySpace (l.dropWhile isPySpace).reverse
  have hrev : ((l.dropWhile isPySpace).reverse.dropWhile isPySpace).reverse ++ s.reverse =
      l.dropWhile isPySpace := by
    have h2 := congrArg List.reverse hs
    rw [List.reverse_append, List.reverse_reverse] at h2
    exact h2
  have hBrev : ∀ a,
      ((l.dropWhile isPySpace).reverse.dropWhile isPySpace).reverse.head? = some a →
        isPySpace a = false := by
    intro a ha
    cases hc : ((l.dropWhile isPySpace).reverse.dropWhile isPySpace).reverse with
    | nil => rw [hc] at ha; cases ha
    | cons c r =>
      rw [hc] at ha
      simp only [List.head?_cons, Option.some.injEq] at ha
      cases ha
      rw [hc] at hrev
      exact hA a (by rw [← hrev]; rfl)
  show pyStrip (pyStrip l) = pyStrip l
  unfold pyStrip
  rw [dropWhile_eq_self_of_head _ _ hBrev, List.reverse_reverse,
    dropWhile_eq_self_of_head _ _ hB]

/-- C10: strip_emojis is idempotent: stripping an already-stripped string
    changes nothing, because the emoji filter leaves no class characters behind
    and str.strip leaves no leading or trailing whitespace behind. -/
theorem strip_emojis_idempotent (s : List Char) :
    strip_emojis (strip_emojis s) = strip_emojis s := by
  unfold strip_emojis
  have h : (pyStrip (s.filter (fun c => !isEmojiChar c))).filter
        (fun c => !isEmojiChar c) =
      pyStrip (s.filter (fun c => !isEmojiChar c)) := by
    apply List.filter_eq_self.mpr
    intro a ha
    exact (List.mem_filter.mp (mem_of_mem_pyStrip ha)).2
  rw [h, pyStrip_idempotent]
